import Mathlib

/-!
Shallow embedding of the data-processing core of `src/app.py`
(`load_trade_data` and the render phase of the script).

Conventions of the embedding:
* a pandas row becomes a `TradeRow`; a possibly-missing (NaN) numeric cell is
  `Option ℚ` (`.fillna(0)` becomes `Option.getD 0`; pandas `sum` skips NaN,
  which is the same as summing `getD 0`);
* numpy floating-point division that produces a non-finite value (NaN or inf
  from a zero denominator) is modelled by `pdiv` returning `none`;
* `df.nlargest(n, col)` (default `keep='first'`) is modelled as a stable
  descending sort followed by `take n`;
* `np.random.uniform` draws are passed in explicitly as rational parameters.
-/

namespace TradeApp

/-- One row of the trade CSV, with the columns `load_trade_data` reads. -/
structure TradeRow where
  town : String
  refArea : Option String
  small : Option ℚ
  medium : Option ℚ
  large : Option ℚ
  service : Option ℚ
  financial : Option ℚ
deriving DecidableEq

/-- pandas column sum: NaN entries are skipped, i.e. treated as 0. -/
def colSum (f : TradeRow → Option ℚ) (t : List TradeRow) : ℚ :=
  (t.map (fun r => (f r).getD 0)).sum

/-- `trade_df['...number of small institutions'].sum()` (app.py line 65). -/
def total_small (t : List TradeRow) : ℚ := colSum TradeRow.small t

/-- `trade_df['...number of medium-sized institutions'].sum()` (line 66). -/
def total_medium (t : List TradeRow) : ℚ := colSum TradeRow.medium t

/-- `trade_df['...number of large-sized institutions'].sum()` (line 67). -/
def total_large (t : List TradeRow) : ℚ := colSum TradeRow.large t

/-- `trade_df['Total number of service institutions '].sum()` (line 68). -/
def total_service (t : List TradeRow) : ℚ := colSum TradeRow.service t

/-- `trade_df['Total number of non banking financial institutions '].sum()` (line 69). -/
def total_financial (t : List TradeRow) : ℚ := colSum TradeRow.financial t

/-- Division as numpy performs it on the metric scalars: a zero denominator
yields a non-finite value (NaN or inf), modelled as `none`; no guard and no
degenerate-input flag exists in the code. -/
def pdiv (a b : ℚ) : Option ℚ := if b = 0 then none else some (a / b)

/-- One row of the `size_distribution` DataFrame (app.py lines 72-80). -/
structure SizeRow where
  instSize : String
  count : ℚ
  percentage : Option ℚ
deriving DecidableEq

/-- The `size_distribution` DataFrame built at app.py lines 72-80:
three fixed category rows; each `Percentage` is
`(total / (total_small + total_medium + total_large)) * 100`, unguarded. -/
def size_distribution (t : List TradeRow) : List SizeRow :=
  let ts := total_small t
  let tm := total_medium t
  let tl := total_large t
  [ ⟨"Small Institutions", ts, (pdiv ts (ts + tm + tl)).map (fun p => p * 100)⟩,
    ⟨"Medium Institutions", tm, (pdiv tm (ts + tm + tl)).map (fun p => p * 100)⟩,
    ⟨"Large Institutions", tl, (pdiv tl (ts + tm + tl)).map (fun p => p * 100)⟩ ]

/-- `trade_df['Total_Commercial']` (app.py lines 97-101):
sum of the three size columns with `.fillna(0)`. -/
def Total_Commercial (r : TradeRow) : ℚ :=
  r.small.getD 0 + r.medium.getD 0 + r.large.getD 0

/-- Density bucket mask `(Total_Commercial >= 0) & (Total_Commercial <= 10)` (line 107). -/
def bucket1 (r : TradeRow) : Bool :=
  decide (0 ≤ Total_Commercial r) && decide (Total_Commercial r ≤ 10)

/-- Density bucket mask `(Total_Commercial > 10) & (Total_Commercial <= 50)` (line 108). -/
def bucket2 (r : TradeRow) : Bool :=
  decide (10 < Total_Commercial r) && decide (Total_Commercial r ≤ 50)

/-- Density bucket mask `(Total_Commercial > 50) & (Total_Commercial <= 100)` (line 109). -/
def bucket3 (r : TradeRow) : Bool :=
  decide (50 < Total_Commercial r) && decide (Total_Commercial r ≤ 100)

/-- Density bucket mask `Total_Commercial > 100` (line 110). -/
def bucket4 (r : TradeRow) : Bool :=
  decide (100 < Total_Commercial r)

/-- One row of the `business_density` DataFrame (app.py lines 104-118). -/
structure DensityRow where
  category : String
  townsCount : ℕ
  totalInstitutions : ℚ
deriving DecidableEq

/-- `trade_df[mask]['Total_Commercial'].sum()` for a bucket mask. -/
def bucketSum (p : TradeRow → Bool) (t : List TradeRow) : ℚ :=
  ((t.filter p).map Total_Commercial).sum

/-- The `business_density` DataFrame built at app.py lines 104-118:
four fixed density-category rows with a boolean-mask count and a masked sum. -/
def business_density (t : List TradeRow) : List DensityRow :=
  [ ⟨"0-10 Institutions", t.countP bucket1, bucketSum bucket1 t⟩,
    ⟨"11-50 Institutions", t.countP bucket2, bucketSum bucket2 t⟩,
    ⟨"51-100 Institutions", t.countP bucket3, bucketSum bucket3 t⟩,
    ⟨"100+ Institutions", t.countP bucket4, bucketSum bucket4 t⟩ ]

/-- `trade_df['Total_All_Business']` (app.py lines 142-146). -/
def Total_All_Business (r : TradeRow) : ℚ :=
  Total_Commercial r + r.service.getD 0 + r.financial.getD 0

/-- Ordering used by `nlargest(20, 'Total_All_Business')`: row `a` comes no
later than row `b` when its ranking value is at least as large. -/
def tabGE (a b : TradeRow) : Prop :=
  Total_All_Business b ≤ Total_All_Business a

instance : DecidableRel tabGE := fun a b =>
  inferInstanceAs (Decidable (Total_All_Business b ≤ Total_All_Business a))

instance : IsTotal TradeRow tabGE :=
  ⟨fun a b => le_total (Total_All_Business b) (Total_All_Business a)⟩

instance : IsTrans TradeRow tabGE :=
  ⟨fun _ _ _ h1 h2 => le_trans h2 h1⟩

/-- `trade_df.nlargest(20, 'Total_All_Business')` (app.py line 149):
pandas `nlargest` with the default `keep='first'` returns the first ≤ 20 rows
of a stable descending sort by the ranking column; equal values keep their
original relative order. Modelled by a stable insertion sort plus `take 20`. -/
def top_commercial_towns (t : List TradeRow) : List TradeRow :=
  (List.insertionSort tabGE t).take 20

/-- The literal chars of `_Governorate`, the fixed part of the pattern
`r'/([^/]+)_Governorate'` used at app.py line 139. -/
def govSuffix : List Char := "_Governorate".toList

/-- Greedy backtracking step of the regex: within the maximal `[^/]`-run that
follows a `/`, the capture group `([^/]+)` takes the largest `k ≥ 1` such that
`_Governorate` starts right after the first `k` characters. -/
def greedyK (run : List Char) : Option ℕ :=
  ((List.range (run.length + 1)).filter
    (fun k => decide (1 ≤ k) && List.isPrefixOf govSuffix (run.drop k))).getLast?

/-- `re.search` of `/([^/]+)_Governorate` over the characters of `refArea`:
try each `/` from the left; at the first `/` where the greedy capture
succeeds, return the captured group; otherwise no match (`none`). -/
def searchGov : List Char → Option (List Char)
  | [] => none
  | c :: cs =>
    if c = '/' then
      let run := cs.takeWhile (fun d => d ≠ '/')
      match greedyK run with
      | some k => some (run.take k)
      | none => searchGov cs
    else searchGov cs

/-- `trade_df['refArea'].str.extract(r'/([^/]+)_Governorate')` on one cell:
`none` models the NaN produced when the cell is NaN or the pattern does not
match. -/
def extractGov (s : String) : Option String :=
  (searchGov s.toList).map (fun cs => String.mk cs)

/-- `trade_df['Governorate']` (app.py line 139): the extracted group with
`.fillna('Unknown')` applied, for a possibly-NaN `refArea` cell. -/
def governorate (refArea : Option String) : String :=
  match refArea with
  | none => "Unknown"
  | some s => (extractGov s).getD ("Unknown")

/-- The hardcoded `coords_map` of app.py lines 152-160. -/
def coords_map : List (String × ℚ × ℚ) :=
  [ ("Beirut", (338938/10000, 355018/10000)),
    ("Tripoli", (344361/10000, 358339/10000)),
    ("Sidon", (335630/10000, 353783/10000)),
    ("Tyre", (332732/10000, 352039/10000)),
    ("Jounieh", (339816/10000, 356178/10000)),
    ("Zahle", (338467/10000, 359017/10000)),
    ("Baalbek", (340058/10000, 362158/10000)) ]

/-- Substring test for Python's `'needle' in s`. -/
def strContains (needle hay : String) : Bool :=
  (List.range (hay.length + 1)).any
    (fun i => List.isPrefixOf needle.toList (hay.toList.drop i))

/-- Python's `str.strip()`: drop leading and trailing whitespace. -/
def stripStr (s : String) : String :=
  String.mk
    (((s.toList.dropWhile (fun c => c.isWhitespace)).reverse.dropWhile
        (fun c => c.isWhitespace)).reverse)

/-- Coordinate assignment for one top town (app.py lines 163-181): towns found
in `coords_map` (after `.strip()`) get fixed coordinates; otherwise the
governorate substring picks a regional base point to which fresh
`np.random.uniform` draws are added. The two draws of the chosen branch are
the explicit parameters `rlat` and `rlon`. -/
def assignCoord (town gov : String) (rlat rlon : ℚ) : ℚ × ℚ :=
  match List.lookup (stripStr town) coords_map with
  | some c => c
  | none =>
    if strContains ("Mount_Lebanon") gov then (339/10 + rlat, 355/10 + rlon)
    else if strContains ("North") gov then (343/10 + rlat, 358/10 + rlon)
    else if strContains ("South") gov then (334/10 + rlat, 353/10 + rlon)
    else (337/10 + rlat, 357/10 + rlon)

/-- One top-level statement of the render phase of app.py (lines 240-360):
the names it reads, the names it binds, and the chart it displays (if any). -/
structure PyStmt where
  reads : List String
  defines : List String
  renders : Option String
deriving DecidableEq

/-- Sequential execution of the render phase: a statement that reads a name
absent from the environment raises `NameError` and the script stops; otherwise
its chart (if any) is displayed and its bindings extend the environment. -/
def runScript (env : List String) : List PyStmt → List String
  | [] => []
  | s :: rest =>
    if s.reads.all (fun n => env.contains n) then
      (match s.renders with
       | some c => [c]
       | none => []) ++ runScript (s.defines ++ env) rest
    else []

/-- Names bound before the render phase: the imports (lines 1-5) and the
function definition (line 58). -/
def initialEnv : List String :=
  ["st", "pd", "px", "go", "np", "load_trade_data"]

/-- The render-phase statements of app.py, lines 240-360, in program order. -/
def renderScript : List PyStmt :=
  [ ⟨["load_trade_data"],
     ["size_dist", "activity_vol", "business_dens", "service_pen", "map_data", "metrics"],
     none⟩,
    ⟨["st"], ["col_m1", "col_m2", "col_m3", "col_m4", "col_m5"], none⟩,
    ⟨["st", "metrics"], [], none⟩,
    ⟨["st"], ["col1", "col2"], none⟩,
    ⟨["px", "size_dist"], ["fig1"], none⟩,
    ⟨["st", "fig1"], [], some ("fig1")⟩,
    ⟨["px", "activity_vol"], ["fig2"], none⟩,
    ⟨["st", "fig2"], [], some ("fig2")⟩,
    ⟨["st"], ["col3", "col4"], none⟩,
    ⟨["px", "business_conc"], ["fig3"], none⟩,
    ⟨["st", "fig3"], [], some ("fig3")⟩,
    ⟨["px", "service_pen"], ["fig4"], none⟩,
    ⟨["st", "fig4"], [], some ("fig4")⟩,
    ⟨["px", "map_data", "metrics"], ["summary_data", "fig5"], none⟩,
    ⟨["st", "fig5"], [], some ("fig5")⟩ ]

/-- Every name the script ever binds at top level, whether or not the binding
statement is reached. -/
def allBoundNames : List String :=
  initialEnv ++ renderScript.flatMap PyStmt.defines

/-- A sample row whose small-institution count is `v` and whose remaining
numeric cells are NaN. -/
def valRow (v : ℚ) : TradeRow :=
  ⟨"T", none, some v, none, none, none, none⟩

/-- A sample row named `n` with 5 small institutions, so that all such rows
tie on `Total_All_Business`. -/
def tieRow (n : String) : TradeRow :=
  ⟨n, none, some 5, none, none, none, none⟩

/-- Town names for the tie-breaking experiment: the lexically largest name
comes first in the table. -/
def tieNames : List String :=
  ["Z", "A01", "A02", "A03", "A04", "A05", "A06", "A07", "A08", "A09", "A10",
   "A11", "A12", "A13", "A14", "A15", "A16", "A17", "A18", "A19", "A20"]

/-- A 21-row table in which every row has the same ranking value 5. -/
def tieTable : List TradeRow := tieNames.map tieRow

/-! ### Helper evaluation lemmas -/

theorem Total_Commercial_valRow (v : ℚ) : Total_Commercial (valRow v) = v := by
  simp [Total_Commercial, valRow]

theorem Total_All_Business_tieRow (n : String) :
    Total_All_Business (tieRow n) = 5 := by
  simp [Total_All_Business, Total_Commercial, tieRow]

theorem totals_valRow (v : ℚ) :
    total_small [valRow v] + total_medium [valRow v] + total_large [valRow v] = v := by
  simp [total_small, total_medium, total_large, colSum, valRow]

/-! ### C1 -/

/-- C1, amended: when the three institution totals sum to zero, every
`Percentage` of the size-distribution table is the undefined result of a zero
division (`none`, modelling numpy NaN), not zero; the code sets no
degenerate-input flag. -/
theorem C1_zero_total_percentages_undefined (t : List TradeRow)
    (h : total_small t + total_medium t + total_large t = 0) :
    (size_distribution t).map SizeRow.percentage = [none, none, none] := by
  simp [size_distribution, pdiv, h]

/-- C1, counterexample: on the one-row all-zero table the percentages are not
the claimed zeros; each is NaN (modelled `none`). -/
theorem C1_counterexample :
    (size_distribution [valRow 0]).map SizeRow.percentage ≠
      [some 0, some 0, some 0] ∧
    (size_distribution [valRow 0]).map SizeRow.percentage = [none, none, none] := by
  have h0 := totals_valRow 0
  constructor
  · simp [size_distribution, pdiv, h0]
  · simp [size_distribution, pdiv, h0]

/-- C1, witness: the amended theorem applied to the one-row all-zero table. -/
theorem C1_witness :
    (total_small [valRow 0] + total_medium [valRow 0] + total_large [valRow 0] = 0) ∧
    (size_distribution [valRow 0]).map SizeRow.percentage = [none, none, none] :=
  ⟨totals_valRow 0, C1_zero_total_percentages_undefined [valRow 0] (totals_valRow 0)⟩

/-! ### C4 -/

/-- C4: for every table whose three institution totals have a strictly
positive sum, the three size-distribution percentages are all defined and sum
to exactly 100 (hence within any floating-point tolerance). -/
theorem C4_percentages_sum_100 (t : List TradeRow)
    (h : 0 < total_small t + total_medium t + total_large t) :
    ∃ p q w, (size_distribution t).map SizeRow.percentage =
        [some p, some q, some w] ∧ p + q + w = 100 := by
  have hne : total_small t + total_medium t + total_large t ≠ 0 := ne_of_gt h
  refine ⟨total_small t / (total_small t + total_medium t + total_large t) * 100,
          total_medium t / (total_small t + total_medium t + total_large t) * 100,
          total_large t / (total_small t + total_medium t + total_large t) * 100,
          ?_, ?_⟩
  · simp [size_distribution, pdiv, hne]
  · field_simp
    ring

/-- C4, witness: the theorem applied to a one-row table with one small
institution. -/
theorem C4_witness :
    (0 < total_small [valRow 1] + total_medium [valRow 1] + total_large [valRow 1]) ∧
    ∃ p q w, (size_distribution [valRow 1]).map SizeRow.percentage =
        [some p, some q, some w] ∧ p + q + w = 100 :=
  ⟨by rw [totals_valRow]; norm_num,
   C4_percentages_sum_100 [valRow 1] (by rw [totals_valRow]; norm_num)⟩

/-! ### C2 -/

/-- Bucket trichotomy: a row with nonnegative `Total_Commercial` satisfies
exactly one of the four density-bucket masks. -/
theorem bucket_partition (r : TradeRow) (h : 0 ≤ Total_Commercial r) :
    (if bucket1 r then 1 else 0) + (if bucket2 r then 1 else 0)
      + (if bucket3 r then 1 else 0) + (if bucket4 r then 1 else 0) = 1 := by
  simp only [bucket1, bucket2, bucket3, bucket4, Bool.and_eq_true,
    decide_eq_true_eq]
  rcases le_or_lt (Total_Commercial r) 10 with h1 | h1
  · have n2 : ¬(10 < Total_Commercial r) := not_lt.2 h1
    have n3 : ¬(50 < Total_Commercial r) := not_lt.2 (h1.trans (by norm_num))
    have n4 : ¬(100 < Total_Commercial r) := not_lt.2 (h1.trans (by norm_num))
    rw [if_pos ⟨h, h1⟩, if_neg (fun hc => n2 hc.1), if_neg (fun hc => n3 hc.1),
      if_neg n4]
  · rcases le_or_lt (Total_Commercial r) 50 with h2 | h2
    · have n3 : ¬(50 < Total_Commercial r) := not_lt.2 h2
      have n4 : ¬(100 < Total_Commercial r) := not_lt.2 (h2.trans (by norm_num))
      rw [if_neg (fun hc => absurd h1 (not_lt.2 hc.2)), if_pos ⟨h1, h2⟩,
        if_neg (fun hc => n3 hc.1), if_neg n4]
    · rcases le_or_lt (Total_Commercial r) 100 with h3 | h3
      · have n4 : ¬(100 < Total_Commercial r) := not_lt.2 h3
        rw [if_neg (fun hc => absurd h2 (not_lt.2 (hc.2.trans (by norm_num)))),
          if_neg (fun hc => absurd h2 (not_lt.2 hc.2)), if_pos ⟨h2, h3⟩,
          if_neg n4]
      · rw [if_neg (fun hc => absurd h3 (not_lt.2 (hc.2.trans (by norm_num)))),
          if_neg (fun hc => absurd h3 (not_lt.2 (hc.2.trans (by norm_num)))),
          if_neg (fun hc => absurd h3 (not_lt.2 hc.2)), if_pos h3]

/-- C2, amended: for every table all of whose rows have a nonnegative
`Total_Commercial` value, the four `Towns Count` entries of the density table
sum to the number of rows; a negative value falls in no bucket, so the
unrestricted claim fails. -/
theorem C2_bucket_counts_partition (t : List TradeRow)
    (h : ∀ r ∈ t, 0 ≤ Total_Commercial r) :
    ((business_density t).map DensityRow.townsCount).sum = t.length := by
  simp only [business_density, List.map_cons, List.map_nil, List.sum_cons,
    List.sum_nil, Nat.add_zero]
  induction t with
  | nil => simp
  | cons r rs ih =>
    have hr : 0 ≤ Total_Commercial r := h r (List.mem_cons_self r rs)
    have key := bucket_partition r hr
    have ihv := ih (fun x hx => h x (List.mem_cons_of_mem r hx))
    simp only [List.countP_cons, List.length_cons]
    omega

/-- C2, counterexample: a one-row table whose `Total_Commercial` is `-1` is
counted by no density bucket, so the bucket counts sum to 0 while the table
has 1 row. -/
theorem C2_counterexample :
    ((business_density [valRow (-1)]).map DensityRow.townsCount).sum ≠
      [valRow (-1)].length := by
  have h1 : bucket1 (valRow (-1)) = false := by
    norm_num [bucket1, Total_Commercial_valRow]
  have h2 : bucket2 (valRow (-1)) = false := by
    norm_num [bucket2, Total_Commercial_valRow]
  have h3 : bucket3 (valRow (-1)) = false := by
    norm_num [bucket3, Total_Commercial_valRow]
  have h4 : bucket4 (valRow (-1)) = false := by
    norm_num [bucket4, Total_Commercial_valRow]
  simp [business_density, List.countP_cons, h1, h2, h3, h4]

/-- C2, witness: the amended theorem applied to a one-row table with
`Total_Commercial = 10`. -/
theorem C2_witness :
    (∀ r ∈ [valRow 10], 0 ≤ Total_Commercial r) ∧
    ((business_density [valRow 10]).map DensityRow.townsCount).sum =
      [valRow 10].length := by
  have hpos : ∀ r ∈ [valRow 10], 0 ≤ Total_Commercial r := by
    intro r hr
    simp only [List.mem_singleton] at hr
    rw [hr, Total_Commercial_valRow]
    norm_num
  exact ⟨hpos, C2_bucket_counts_partition [valRow 10] hpos⟩

/-! ### C3 -/

/-- Bucket masks are all false on a row with negative `Total_Commercial`. -/
theorem buckets_false_of_neg (r : TradeRow) (h : Total_Commercial r < 0) :
    bucket1 r = false ∧ bucket2 r = false ∧ bucket3 r = false ∧
      bucket4 r = false := by
  have d1 : decide (0 ≤ Total_Commercial r) = false :=
    decide_eq_false (not_le.2 h)
  have d2 : decide (10 < Total_Commercial r) = false :=
    decide_eq_false (not_lt.2 (h.le.trans (by norm_num)))
  have d3 : decide (50 < Total_Commercial r) = false :=
    decide_eq_false (not_lt.2 (h.le.trans (by norm_num)))
  have d4 : decide (100 < Total_Commercial r) = false :=
    decide_eq_false (not_lt.2 (h.le.trans (by norm_num)))
  exact ⟨by simp [bucket1, d1], by simp [bucket2, d2], by simp [bucket3, d3],
    by simp [bucket4, d4]⟩

/-- C3, amended: a row whose `Total_Commercial` value is below the first
bucket's lower bound is silently excluded from every density bucket — it
changes neither a `Towns Count` nor a `Total Institutions` entry, and the
code collects no per-row error; the remaining rows are processed unchanged. -/
theorem C3_out_of_domain_row_silently_dropped (r : TradeRow) (t : List TradeRow)
    (h : Total_Commercial r < 0) :
    business_density (r :: t) = business_density t := by
  obtain ⟨h1, h2, h3, h4⟩ := buckets_false_of_neg r h
  simp [business_density, List.countP_cons, bucketSum, List.filter_cons,
    h1, h2, h3, h4]

/-- C3, counterexample: the density output for a table holding only an
out-of-domain row is identical to the output for the empty table — the row
leaves no trace and no error list exists, contradicting the claimed per-row
error reporting. -/
theorem C3_counterexample :
    business_density [valRow (-1)] = business_density [] ∧
    ((business_density [valRow (-1)]).map DensityRow.townsCount).sum = 0 := by
  have hneg : Total_Commercial (valRow (-1)) < 0 := by
    rw [Total_Commercial_valRow]; norm_num
  have d1 : decide (0 ≤ Total_Commercial (valRow (-1))) = false :=
    decide_eq_false (not_le.2 hneg)
  have d2 : decide (10 < Total_Commercial (valRow (-1))) = false :=
    decide_eq_false (not_lt.2 (hneg.le.trans (by norm_num)))
  have d3 : decide (50 < Total_Commercial (valRow (-1))) = false :=
    decide_eq_false (not_lt.2 (hneg.le.trans (by norm_num)))
  have d4 : decide (100 < Total_Commercial (valRow (-1))) = false :=
    decide_eq_false (not_lt.2 (hneg.le.trans (by norm_num)))
  constructor
  · simp [business_density, List.countP_cons, bucketSum, List.filter_cons,
      bucket1, bucket2, bucket3, bucket4, d1, d2, d3, d4]
  · simp [business_density, List.countP_cons,
      bucket1, bucket2, bucket3, bucket4, d1, d2, d3, d4]

/-- C3, witness: the amended theorem applied to the out-of-domain row and the
empty remainder. -/
theorem C3_witness :
    Total_Commercial (valRow (-1)) < 0 ∧
    business_density (valRow (-1) :: []) = business_density [] := by
  have hneg : Total_Commercial (valRow (-1)) < 0 := by
    rw [Total_Commercial_valRow]; norm_num
  exact ⟨hneg, C3_out_of_domain_row_silently_dropped (valRow (-1)) [] hneg⟩

/-! ### C7 -/

/-- C7: a row whose `Total_Commercial` is exactly 10 is counted in the
`0-10 Institutions` bucket only, and a row with value 10.0001 is counted in
the `11-50 Institutions` bucket only. -/
theorem C7_boundary_values :
    (business_density [valRow 10]).map DensityRow.townsCount = [1, 0, 0, 0] ∧
    (business_density [valRow (100001/10000)]).map DensityRow.townsCount =
      [0, 1, 0, 0] := by
  constructor
  · have e1 : bucket1 (valRow 10) = true := by
      norm_num [bucket1, Total_Commercial_valRow]
    have e2 : bucket2 (valRow 10) = false := by
      norm_num [bucket2, Total_Commercial_valRow]
    have e3 : bucket3 (valRow 10) = false := by
      norm_num [bucket3, Total_Commercial_valRow]
    have e4 : bucket4 (valRow 10) = false := by
      norm_num [bucket4, Total_Commercial_valRow]
    simp [business_density, List.countP_cons, e1, e2, e3, e4]
  · have e1 : bucket1 (valRow (100001/10000)) = false := by
      norm_num [bucket1, Total_Commercial_valRow]
    have e2 : bucket2 (valRow (100001/10000)) = true := by
      norm_num [bucket2, Total_Commercial_valRow]
    have e3 : bucket3 (valRow (100001/10000)) = false := by
      norm_num [bucket3, Total_Commercial_valRow]
    have e4 : bucket4 (valRow (100001/10000)) = false := by
      norm_num [bucket4, Total_Commercial_valRow]
    simp [business_density, List.countP_cons, e1, e2, e3, e4]

/-! ### C5 -/

/-- Stable insertion sort leaves a list of all-equal ranking values in its
original order. -/
theorem insertionSort_tie :
    ∀ l : List TradeRow, (∀ x ∈ l, Total_All_Business x = 5) →
      List.insertionSort tabGE l = l := by
  intro l
  induction l with
  | nil => intro _; rfl
  | cons a l ih =>
    intro h
    rw [List.insertionSort, ih (fun x hx => h x (List.mem_cons_of_mem a hx))]
    cases l with
    | nil => rfl
    | cons b l2 =>
      have hab : tabGE a b := by
        show Total_All_Business b ≤ Total_All_Business a
        rw [h a (List.mem_cons_self a (b :: l2)),
          h b (List.mem_cons_of_mem a (List.mem_cons_self b l2))]
      rw [List.orderedInsert, if_pos hab]

/-- C5, counterexample: in a 21-row table where every row ties on
`Total_All_Business`, the lexically largest town name `Z` (placed first in
the table) survives the top-20 cut while `A20` is dropped — `nlargest` with
`keep='first'` breaks ties by original row order, not by ascending lexical
order of the town name as claimed. -/
theorem C5_counterexample :
    ("Z" ∈ (top_commercial_towns tieTable).map TradeRow.town ∧
      "A20" ∉ (top_commercial_towns tieTable).map TradeRow.town) ∧
    tieTable.length = 21 := by
  have hall : ∀ x ∈ tieTable, Total_All_Business x = 5 := by
    intro x hx
    simp only [tieTable, List.mem_map] at hx
    obtain ⟨n, _, rfl⟩ := hx
    exact Total_All_Business_tieRow n
  have hs : List.insertionSort tabGE tieTable = tieTable :=
    insertionSort_tie tieTable hall
  rw [top_commercial_towns, hs]
  refine ⟨⟨?_, ?_⟩, ?_⟩ <;> decide

/-- C5, amended: the top-20 selection returns `min 20 n` rows (all rows when
fewer than 20 exist, with no error), ordered descending by
`Total_All_Business`; every dropped row ranks no higher than any kept row;
ties keep the original row order rather than ascending town-name order. -/
theorem C5_topn_selection (t : List TradeRow) :
    (top_commercial_towns t).length = min 20 t.length ∧
    List.Sorted tabGE (top_commercial_towns t) ∧
    ∀ x ∈ top_commercial_towns t, ∀ y ∈ (List.insertionSort tabGE t).drop 20,
      Total_All_Business y ≤ Total_All_Business x := by
  refine ⟨?_, ?_, ?_⟩
  · rw [top_commercial_towns, List.length_take,
      (List.perm_insertionSort tabGE t).length_eq]
  · exact List.Pairwise.sublist (List.take_sublist 20 _)
      (List.sorted_insertionSort tabGE t)
  · intro x hx y hy
    have hs := List.sorted_insertionSort tabGE t
    have hsplit : List.insertionSort tabGE t =
        (List.insertionSort tabGE t).take 20 ++
          (List.insertionSort tabGE t).drop 20 :=
      (List.take_append_drop 20 _).symm
    rw [hsplit] at hs
    exact (List.pairwise_append.mp hs).2.2 x hx y hy

/-! ### C6 -/

/-- C6: a record whose raw `refArea` is null (NaN), blank, or matched by no
rule of the extraction pattern gets the literal canonical label `Unknown`;
it is relabelled, not dropped. -/
theorem C6_unmatched_refArea_is_Unknown (refArea : Option String)
    (h : refArea = none ∨ refArea = some ("") ∨
      ∃ s, refArea = some s ∧ extractGov s = none) :
    governorate refArea = "Unknown" := by
  rcases h with rfl | rfl | ⟨s, rfl, hs⟩
  · rfl
  · rfl
  · simp [governorate, hs]

/-- C6, witness: the theorem applied to the unmatched raw string `Beirut`. -/
theorem C6_witness :
    ((some ("Beirut") : Option String) = none ∨
      (some ("Beirut") : Option String) = some ("") ∨
      ∃ s, (some ("Beirut") : Option String) = some s ∧ extractGov s = none) ∧
    governorate (some ("Beirut")) = "Unknown" :=
  ⟨Or.inr (Or.inr ⟨"Beirut", rfl, by decide⟩),
   C6_unmatched_refArea_is_Unknown (some ("Beirut"))
     (Or.inr (Or.inr ⟨"Beirut", rfl, by decide⟩))⟩

/-! ### C8 -/

/-- C8, counterexample: for the empty input table the size-distribution
output is not an empty table — it keeps its three fixed category rows. -/
theorem C8_counterexample :
    size_distribution [] ≠ [] ∧ (size_distribution []).length = 3 := by
  constructor
  · simp [size_distribution]
  · simp [size_distribution]

/-- C8, amended: the empty input table is processed without error, but the
category tables are not empty: they keep their fixed category rows with zero
counts and undefined (NaN) percentages; only the top-towns selection is
empty. -/
theorem C8_empty_input :
    size_distribution [] =
      [⟨"Small Institutions", 0, none⟩, ⟨"Medium Institutions", 0, none⟩,
       ⟨"Large Institutions", 0, none⟩] ∧
    business_density [] =
      [⟨"0-10 Institutions", 0, 0⟩, ⟨"11-50 Institutions", 0, 0⟩,
       ⟨"51-100 Institutions", 0, 0⟩, ⟨"100+ Institutions", 0, 0⟩] ∧
    top_commercial_towns [] = [] := by
  refine ⟨?_, ?_, rfl⟩
  · simp [size_distribution, total_small, total_medium, total_large, colSum,
      pdiv]
  · simp [business_density, bucketSum]

/-! ### C9 -/

/-- C9: the name `business_conc` is bound nowhere in the script, so the third
visualization statement raises `NameError`; execution stops there and only
the first two charts are ever rendered. -/
theorem C9_business_conc_undefined :
    "business_conc" ∉ allBoundNames ∧
    runScript initialEnv renderScript = ["fig1", "fig2"] := by
  constructor
  · decide
  · decide

/-! ### C10 -/

/-- C10: for a top-ranked town absent from `coords_map`, the assigned
coordinates depend on the `np.random.uniform` draw: two runs whose draws
differ return different coordinates, so `load_trade_data` is not
deterministic on such inputs. The bounds keep both draws inside every
branch's admissible uniform range. -/
theorem C10_coords_depend_on_rng (town gov : String) (rlat rlon : ℚ)
    (hmem : List.lookup (stripStr town) coords_map = none)
    (h0 : rlat ≠ 0) (_hlo : -(1/5) ≤ rlat) (_hhi : rlat ≤ 1/5) :
    assignCoord town gov rlat rlon ≠ assignCoord town gov 0 rlon := by
  simp only [assignCoord, hmem]
  split_ifs <;>
    (intro hc; rw [Prod.mk.injEq] at hc; exact h0 (by linarith [hc.1]))

/-- C10, witness: the theorem applied to the town `Aley`, which is not in
`coords_map`, with draws 1/10 and 0. -/
theorem C10_witness :
    List.lookup (stripStr ("Aley")) coords_map = none ∧ ((1:ℚ)/10 ≠ 0) ∧
    (-(1/5) ≤ (1:ℚ)/10) ∧ ((1:ℚ)/10 ≤ 1/5) ∧
    assignCoord ("Aley") "Mount_Lebanon_Governorate" (1/10) 0 ≠
      assignCoord ("Aley") "Mount_Lebanon_Governorate" 0 0 :=
  ⟨by decide, by norm_num, by norm_num, by norm_num,
   C10_coords_depend_on_rng ("Aley") "Mount_Lebanon_Governorate" (1/10) 0
     (by decide) (by norm_num) (by norm_num) (by norm_num)⟩

end TradeApp
